import Mathlib

/-!
Verification of the lightweight descheduler's policy engine: a shallow
embedding of the eviction gatekeeper (pkg/eviction/evictor.go), the cluster
view helpers (pkg/utils), the strategy cores (RemoveDuplicates,
LowNodeUtilization), the configuration pipeline (pkg/config) and the
controller cycle (pkg/scheduler), together with theorems settling the
specification's claims about them.

Machine integers are modelled as Int (Go int / int64); Go maps keyed by
strings are modelled as association lists with first-match lookup; the
cluster API call of a real eviction is modelled by an oracle argument
giving the call's outcome.
-/

namespace Descheduler

/-! ## Data model (read-only views of cluster entities) -/

/-- Lifecycle phase of a workload (v1.PodPhase). -/
inductive PodPhase where
  | Pending
  | Running
  | Succeeded
  | Failed
  | Unknown
deriving DecidableEq, Repr

/-- An owner reference: the fields the program reads (Kind, Name). -/
structure OwnerReference where
  Kind : String
  Name : String
deriving DecidableEq, Repr

/-- A container: the program only reads its image string. -/
structure Container where
  Image : String
deriving DecidableEq, Repr

/-- A volume descriptor: whether the HostPath / EmptyDir variants are set. -/
structure Volume where
  HostPath : Bool
  EmptyDir : Bool
deriving DecidableEq, Repr

/-- A workload view (v1.Pod), flattened to the fields the program reads. -/
structure Pod where
  Namespace : String
  Name : String
  NodeName : String
  Phase : PodPhase
  OwnerReferences : List OwnerReference
  Annotations : List (String × String)
  DeletionTimestamp : Option Nat
  PriorityClassName : String
  Priority : Option Int
  Volumes : List Volume
  Containers : List Container
  CreationTimestamp : Nat
  StatusReason : String
deriving DecidableEq, Repr

/-- A node condition (v1.NodeCondition): Type and Status strings. -/
structure NodeCondition where
  CondType : String
  Status : String
deriving DecidableEq, Repr

/-- A node view (v1.Node), flattened to the fields the program reads. -/
structure Node where
  Name : String
  Labels : List (String × String)
  Unschedulable : Bool
  Conditions : List NodeCondition
deriving DecidableEq, Repr

/-! ## Counter maps (Go map[string]int as an association list) -/

abbrev CountMap := List (String × Int)

/-- Go map read `m[k]` with the zero default. -/
def mapGet : CountMap → String → Int
  | [], _ => 0
  | kv :: rest, k => if kv.1 = k then kv.2 else mapGet rest k

/-- Go map update `m[k]++`. -/
def mapInc : CountMap → String → CountMap
  | [], k => [(k, 1)]
  | kv :: rest, k => if kv.1 = k then (kv.1, kv.2 + 1) :: rest else kv :: mapInc rest k

/-- The keys present in the map. -/
def mapKeys (m : CountMap) : List String := m.map (fun kv => kv.1)

/-! ## Configuration (pkg/config) -/

/-- EvictionLimits (config.EvictionLimits). -/
structure EvictionLimits where
  MaxPodsToEvictPerNode : Int
  MaxPodsToEvictPerNamespace : Int
  MaxPodsToEvictTotal : Int
deriving DecidableEq, Repr

/-- ResourceThresholds: integer percentages. -/
structure ResourceThresholds where
  CPU : Int
  Memory : Int
  Pods : Int
deriving DecidableEq, Repr

/-- LowNodeUtilizationConfig. -/
structure LowNodeUtilizationConfig where
  Enabled : Bool
  Thresholds : ResourceThresholds
  TargetThresholds : ResourceThresholds
  NumberOfNodes : Int
deriving DecidableEq, Repr

/-- RemoveFailedPodsConfig. -/
structure RemoveFailedPodsConfig where
  Enabled : Bool
  MinPodLifetimeSeconds : Int
  ExcludeOwnerKinds : List String
  IncludedNamespaces : List String
  ExcludedNamespaces : List String
deriving DecidableEq, Repr

/-- RemoveDuplicatesConfig. -/
structure RemoveDuplicatesConfig where
  Enabled : Bool
  ExcludeOwnerKinds : List String
  IncludedNamespaces : List String
  ExcludedNamespaces : List String
deriving DecidableEq, Repr

/-- StrategiesConfig: the three optional per-strategy configurations. -/
structure StrategiesConfig where
  RemoveFailedPods : Option RemoveFailedPodsConfig
  LowNodeUtilization : Option LowNodeUtilizationConfig
  RemoveDuplicates : Option RemoveDuplicatesConfig
deriving DecidableEq, Repr

/-- The main Config. Interval is a Go time.Duration in nanoseconds. -/
structure Config where
  Interval : Int
  DryRun : Bool
  NodeSelector : List (String × String)
  Limits : EvictionLimits
  Strategies : StrategiesConfig
  LogLevel : String
deriving DecidableEq, Repr

/-- One minute as a Go time.Duration (nanoseconds). -/
def minuteNs : Int := 60000000000

/-! ## Eviction gatekeeper (pkg/eviction/evictor.go) -/

/-- EvictionStats. -/
structure EvictionStats where
  TotalEvicted : Int
  EvictedByNode : CountMap
  EvictedByNamespace : CountMap
  EvictedByReason : CountMap
  FailedEvictions : Int
deriving DecidableEq, Repr

/-- The stats NewDefaultPodEvictor starts with and ResetStats restores:
all counters zero, all maps empty. -/
def initialStats : EvictionStats :=
  { TotalEvicted := 0
    EvictedByNode := []
    EvictedByNamespace := []
    EvictedByReason := []
    FailedEvictions := 0 }

/-- isSystemCriticalPod: critical priority class or a system namespace. -/
def isSystemCriticalPod (pod : Pod) : Bool :=
  if pod.PriorityClassName = "system-cluster-critical" ∨
      pod.PriorityClassName = "system-node-critical" then true
  else ["kube-system", "kube-public", "kube-node-lease"].any
    (fun ns => pod.Namespace == ns)

/-- isDaemonSetPod: some owner reference has kind DaemonSet. -/
def isDaemonSetPod (pod : Pod) : Bool :=
  pod.OwnerReferences.any (fun owner => owner.Kind == "DaemonSet")

/-- isStaticPod: the config.source annotation is present and equals "file". -/
def isStaticPod (pod : Pod) : Bool :=
  match pod.Annotations.find? (fun kv => kv.1 == "kubernetes.io/config.source") with
  | some kv => kv.2 == "file"
  | none => false

/-- isStandalonePod: the owner-reference list is empty. -/
def isStandalonePod (pod : Pod) : Bool :=
  pod.OwnerReferences.isEmpty

/-- hasLocalStorage: some volume is HostPath or EmptyDir. -/
def hasLocalStorage (pod : Pod) : Bool :=
  pod.Volumes.any (fun v => v.HostPath || v.EmptyDir)

/-- CanEvictPod: the safety cascade, first matching reason wins. -/
def CanEvictPod (pod : Pod) : Bool × String :=
  if isSystemCriticalPod pod then (false, "system critical pod")
  else if isDaemonSetPod pod then (false, "daemonset pod")
  else if isStaticPod pod then (false, "static pod")
  else if isStandalonePod pod ∧ ¬ pod.Phase = PodPhase.Failed then
    (false, "standalone pod (not failed)")
  else if pod.DeletionTimestamp.isSome then (false, "pod is being deleted")
  else if hasLocalStorage pod then (false, "pod has local storage")
  else (true, "")

/-- checkEvictionLimits: total, then per-node (only for a non-empty node
name), then per-namespace; each check applies only when its limit is
positive; the first failing check's message is returned. -/
def checkEvictionLimits (limits : EvictionLimits) (stats : EvictionStats)
    (pod : Pod) : Option String :=
  if limits.MaxPodsToEvictTotal > 0 ∧
      stats.TotalEvicted ≥ limits.MaxPodsToEvictTotal then
    some ("reached total eviction limit: " ++ toString limits.MaxPodsToEvictTotal)
  else if limits.MaxPodsToEvictPerNode > 0 ∧ ¬ pod.NodeName = "" ∧
      mapGet stats.EvictedByNode pod.NodeName ≥ limits.MaxPodsToEvictPerNode then
    some ("reached node " ++ pod.NodeName ++ " eviction limit: " ++
      toString limits.MaxPodsToEvictPerNode)
  else if limits.MaxPodsToEvictPerNamespace > 0 ∧
      mapGet stats.EvictedByNamespace pod.Namespace ≥
        limits.MaxPodsToEvictPerNamespace then
    some ("reached namespace " ++ pod.Namespace ++ " eviction limit: " ++
      toString limits.MaxPodsToEvictPerNamespace)
  else none

/-- updateStats: on success increment the total, the per-node count (only
for a non-empty node name), the per-namespace count and the per-reason
count. -/
def updateStats (stats : EvictionStats) (pod : Pod) (reason : String)
    (success : Bool) : EvictionStats :=
  if success then
    { stats with
      TotalEvicted := stats.TotalEvicted + 1
      EvictedByNode :=
        if ¬ pod.NodeName = "" then mapInc stats.EvictedByNode pod.NodeName
        else stats.EvictedByNode
      EvictedByNamespace := mapInc stats.EvictedByNamespace pod.Namespace
      EvictedByReason := mapInc stats.EvictedByReason reason }
  else stats

/-- What one EvictPod call produced: the returned Go error (none is the nil
error, success), the stats after the call, whether the platform eviction API
was called, and the info-level log line it emitted (if any). -/
structure EvictOutcome where
  result : Option String
  stats : EvictionStats
  apiCalled : Bool
  infoLog : Option String
deriving DecidableEq, Repr

/-- EvictPod. `apiResult` is the outcome of the platform eviction call were
it made: none for success, some message for an API error. -/
def EvictPod (cfg : Config) (stats : EvictionStats) (pod : Pod)
    (reason : String) (apiResult : Option String) : EvictOutcome :=
  match checkEvictionLimits cfg.Limits stats pod with
  | some err =>
    { result := some err, stats := stats, apiCalled := false, infoLog := none }
  | none =>
    if cfg.DryRun then
      { result := none
        stats := updateStats stats pod reason true
        apiCalled := false
        infoLog := some ("[DryRun] Would evict pod " ++ pod.Namespace ++ "/" ++
          pod.Name ++ " on node " ++ pod.NodeName ++ ", reason: " ++ reason) }
    else
      match apiResult with
      | some apiErr =>
        { result := some ("failed to evict pod " ++ pod.Namespace ++ "/" ++
            pod.Name ++ ": " ++ apiErr)
          stats := { stats with FailedEvictions := stats.FailedEvictions + 1 }
          apiCalled := true
          infoLog := none }
      | none =>
        { result := none
          stats := updateStats stats pod reason true
          apiCalled := true
          infoLog := some ("Successfully evicted pod " ++ pod.Namespace ++ "/" ++
            pod.Name ++ " on node " ++ pod.NodeName ++ ", reason: " ++ reason) }

/-- One gatekeeper operation of a cycle: an EvictPod call or ResetStats. -/
inductive EvictorOp where
  | evict (pod : Pod) (reason : String) (apiResult : Option String)
  | reset
deriving Repr

/-- The stats after one gatekeeper operation. -/
def applyOp (cfg : Config) (stats : EvictionStats) : EvictorOp → EvictionStats
  | EvictorOp.evict pod reason apiResult => (EvictPod cfg stats pod reason apiResult).stats
  | EvictorOp.reset => initialStats

/-- The stats after a sequence of gatekeeper operations, starting from the
evictor's initial (all-zero) stats. -/
def runOps (cfg : Config) (ops : List EvictorOp) : EvictionStats :=
  ops.foldl (applyOp cfg) initialStats

/-- The quota invariant of claim C1: each bound applies when its configured
limit is positive. -/
def statsWithinLimits (limits : EvictionLimits) (stats : EvictionStats) : Prop :=
  (limits.MaxPodsToEvictTotal > 0 →
    stats.TotalEvicted ≤ limits.MaxPodsToEvictTotal) ∧
  (limits.MaxPodsToEvictPerNode > 0 →
    ∀ k, mapGet stats.EvictedByNode k ≤ limits.MaxPodsToEvictPerNode) ∧
  (limits.MaxPodsToEvictPerNamespace > 0 →
    ∀ k, mapGet stats.EvictedByNamespace k ≤ limits.MaxPodsToEvictPerNamespace)

/-- The safety cascade as §4.2 of the specification words it, written from
the spec for the refinement claim C2: six conditions in the fixed order
system-critical, DaemonSet-like, static, standalone non-failed, terminating,
local storage; the first matching condition's reason is returned. -/
def canEvictSpec (pod : Pod) : Bool × String :=
  if pod.PriorityClassName = "system-cluster-critical" ∨
      pod.PriorityClassName = "system-node-critical" ∨
      pod.Namespace = "kube-system" ∨ pod.Namespace = "kube-public" ∨
      pod.Namespace = "kube-node-lease" then
    (false, "system critical pod")
  else if pod.OwnerReferences.any (fun owner => owner.Kind == "DaemonSet") then
    (false, "daemonset pod")
  else if (pod.Annotations.find? (fun kv => kv.1 == "kubernetes.io/config.source")).map
      (fun kv => kv.2) = some "file" then
    (false, "static pod")
  else if pod.OwnerReferences = [] ∧ ¬ pod.Phase = PodPhase.Failed then
    (false, "standalone pod (not failed)")
  else if ¬ pod.DeletionTimestamp = none then
    (false, "pod is being deleted")
  else if pod.Volumes.any (fun v => v.HostPath || v.EmptyDir) then
    (false, "pod has local storage")
  else (true, "")

/-! ## Cluster view helpers (pkg/utils) -/

/-- Lexicographic order on character lists (Go string comparison). -/
def lexLe : List Char → List Char → Bool
  | [], _ => true
  | _ :: _, [] => false
  | x :: xs, y :: ys =>
    if x = y then lexLe xs ys else decide (x < y)

/-- Lexicographic order on strings. -/
def strLe (a b : String) : Bool :=
  lexLe a.data b.data

/-- Insert a string into an already ascending list (helper for the model of
sort.Strings). -/
def insertSorted (s : String) : List String → List String
  | [] => [s]
  | x :: xs => if strLe s x then s :: x :: xs else x :: insertSorted s xs

/-- sort.Strings: ascending lexicographic order, modelled by insertion
sort. -/
def sortStrings (l : List String) : List String := l.foldr insertSorted []

/-- GetPodImages: all container images, lexically sorted. -/
def GetPodImages (pod : Pod) : List String :=
  sortStrings (pod.Containers.map (fun c => c.Image))

/-- GeneratePodSignature: namespace, then each owner reference as
"Kind:Name" in order, then the sorted images comma-joined; parts joined by
a pipe. -/
def GeneratePodSignature (pod : Pod) : String :=
  String.intercalate "|"
    (pod.Namespace ::
      pod.OwnerReferences.map (fun owner => owner.Kind ++ ":" ++ owner.Name) ++
      [String.intercalate "," (GetPodImages pod)])

/-- Per-node utilization record (utils.NodeResourceUtilization). -/
structure NodeResourceUtilization where
  NodeName : String
  CPUUsage : Int
  MemoryUsage : Int
  PodsCount : Int
  CPUPercent : Int
  MemoryPercent : Int
  PodsPercent : Int
deriving DecidableEq, Repr

/-- IsReadyNode: the first condition of type "Ready" decides; no such
condition means not ready. -/
def IsReadyNode (node : Node) : Bool :=
  match node.Conditions.find? (fun c => c.CondType == "Ready") with
  | some c => c.Status == "True"
  | none => false

/-- IsSchedulableNode: the Unschedulable flag is not set. -/
def IsSchedulableNode (node : Node) : Bool :=
  !node.Unschedulable

/-! ## Strategy: LowNodeUtilization (per-node eviction loop and cap) -/

/-- calculateMaxEvictions: the per-node cap, from the largest excess over
the target thresholds. -/
def calculateMaxEvictions (cfg : LowNodeUtilizationConfig)
    (nodeUtil : NodeResourceUtilization) : Int :=
  let cpuExcess := max 0 (nodeUtil.CPUPercent - cfg.TargetThresholds.CPU)
  let memoryExcess := max 0 (nodeUtil.MemoryPercent - cfg.TargetThresholds.Memory)
  let podsExcess := max 0 (nodeUtil.PodsPercent - cfg.TargetThresholds.Pods)
  let maxExcess := max cpuExcess (max memoryExcess podsExcess)
  max 1 (min 5 (maxExcess / 10))

/-- The eviction reason the strategy formats for an over-utilized node. -/
def overUtilizationReason (nodeUtil : NodeResourceUtilization) : String :=
  "Node over-utilization balancing - CPU=" ++ toString nodeUtil.CPUPercent ++
    "%, Memory=" ++ toString nodeUtil.MemoryPercent ++
    "%, Pods=" ++ toString nodeUtil.PodsPercent ++ "%"

/-- The running state of a strategy's per-node eviction loop: the evicted
and skipped counters and the shared evictor stats. -/
structure LoopState where
  evicted : Int
  skipped : Int
  stats : EvictionStats
deriving DecidableEq, Repr

/-- The per-node eviction loop of evictPodsFromOverUtilizedNodes: stop once
`evicted` reaches the cap; a CanEvictPod rejection counts as skipped; an
EvictPod error (quota or API) is logged and the loop continues; only a
successful eviction increments `evicted`. `api` gives each real eviction
call's outcome. -/
def evictLoop (cfg : Config) (api : Pod → Option String) (maxEvictions : Int)
    (reason : String) : List Pod → LoopState → LoopState
  | [], st => st
  | pod :: rest, st =>
    if st.evicted ≥ maxEvictions then st
    else if ¬ (CanEvictPod pod).1 then
      evictLoop cfg api maxEvictions reason rest { st with skipped := st.skipped + 1 }
    else
      let out := EvictPod cfg st.stats pod reason (api pod)
      match out.result with
      | some _ => evictLoop cfg api maxEvictions reason rest { st with stats := out.stats }
      | none =>
        evictLoop cfg api maxEvictions reason rest
          { st with evicted := st.evicted + 1, stats := out.stats }

/-- Processing of one over-utilized node: the loop over the (already
priority-sorted) candidates, capped by calculateMaxEvictions. -/
def processOverUtilizedNode (cfg : Config) (lnu : LowNodeUtilizationConfig)
    (api : Pod → Option String) (nodeUtil : NodeResourceUtilization)
    (sortedPods : List Pod) (stats : EvictionStats) : LoopState :=
  evictLoop cfg api (calculateMaxEvictions lnu nodeUtil)
    (overUtilizationReason nodeUtil) sortedPods
    { evicted := 0, skipped := 0, stats := stats }

/-! ## Strategy: RemoveDuplicates -/

/-- findDuplicateNodes: a group spread over fewer than 2 nodes is skipped
outright; otherwise every node with more than one workload of the signature
is a duplicate node, and if there is none, the first node with the strictly
largest list is picked. -/
def findDuplicateNodes (nodePodsMap : List (String × List Pod)) : List String :=
  if nodePodsMap.length < 2 then []
  else
    let dup := (nodePodsMap.filter (fun kv => kv.2.length > 1)).map (fun kv => kv.1)
    if dup.length = 0 ∧ nodePodsMap.length > 1 then
      let best := nodePodsMap.foldl
        (fun acc kv => if kv.2.length > acc.2 then (kv.1, kv.2.length) else acc)
        ("", 0)
      if ¬ best.1 = "" then [best.1] else []
    else dup

/-- One left-to-right bubble pass, carrying the element currently in hand:
adjacent elements are swapped when the left one was created strictly later
(CreationTimestamp.After is a strict comparison). -/
def bubbleCarry (a : Pod) : List Pod → List Pod
  | [] => [a]
  | b :: t =>
    if b.CreationTimestamp < a.CreationTimestamp then b :: bubbleCarry a t
    else a :: bubbleCarry b t

/-- One left-to-right bubble pass over a whole list. -/
def bubblePass : List Pod → List Pod
  | [] => []
  | a :: t => bubbleCarry a t

/-- One outer iteration of sortPodsByAge's bubble sort: a bubble pass over
the first k elements. -/
def passUpTo (k : Nat) (l : List Pod) : List Pod :=
  bubblePass (l.take k) ++ l.drop k

/-- The outer loop of sortPodsByAge: passes over shrinking prefixes, sizes
n, n-1, ..., 2. -/
def sortPasses : Nat → List Pod → List Pod
  | 0, l => l
  | 1, l => l
  | Nat.succ (Nat.succ k), l => sortPasses (k + 1) (passUpTo (k + 2) l)

/-- sortPodsByAge: bubble sort by creation time, oldest first. -/
def sortPodsByAge (pods : List Pod) : List Pod :=
  sortPasses pods.length pods

/-- Ascending creation-time order on pods. -/
def podTsLe (a b : Pod) : Prop :=
  a.CreationTimestamp ≤ b.CreationTimestamp

/-- The eviction reason RemoveDuplicates formats for a duplicate node. -/
def duplicateRemovalReason (nodeName : String) : String :=
  "Duplicate pod removal - keeping oldest pod on node " ++ nodeName

/-- The per-duplicate-node loop of RemoveDuplicates.Execute over the pods
passed to the gatekeeper: each is consulted with CanEvictPod (a rejection is
skipped) then evicted through EvictPod (an error is logged and the loop
continues). -/
def dupLoop (cfg : Config) (api : Pod → Option String) (nodeName : String) :
    List Pod → LoopState → LoopState
  | [], st => st
  | pod :: rest, st =>
    if ¬ (CanEvictPod pod).1 then
      dupLoop cfg api nodeName rest { st with skipped := st.skipped + 1 }
    else
      let out := EvictPod cfg st.stats pod (duplicateRemovalReason nodeName) (api pod)
      match out.result with
      | some _ => dupLoop cfg api nodeName rest { st with stats := out.stats }
      | none =>
        dupLoop cfg api nodeName rest
          { st with evicted := st.evicted + 1, stats := out.stats }

/-- Processing of one duplicate node: sort its pods by age and pass every
pod but the first (the oldest) to the gatekeeper. -/
def processDuplicateNode (cfg : Config) (api : Pod → Option String)
    (nodeName : String) (pods : List Pod) (stats : EvictionStats) : LoopState :=
  dupLoop cfg api nodeName ((sortPodsByAge pods).drop 1)
    { evicted := 0, skipped := 0, stats := stats }

/-! ## Configuration loading (pkg/config LoadConfig pipeline) -/

/-- setDefaults: a zero interval is overwritten with 5 minutes, an empty
log level with "info", zero limits with 10 / 5 / 50. -/
def setDefaults (c : Config) : Config :=
  let c1 := if c.Interval = 0 then { c with Interval := 5 * minuteNs } else c
  let c2 := if c1.LogLevel = "" then { c1 with LogLevel := "info" } else c1
  let c3 :=
    if c2.Limits.MaxPodsToEvictPerNode = 0 then
      { c2 with Limits := { c2.Limits with MaxPodsToEvictPerNode := 10 } }
    else c2
  let c4 :=
    if c3.Limits.MaxPodsToEvictPerNamespace = 0 then
      { c3 with Limits := { c3.Limits with MaxPodsToEvictPerNamespace := 5 } }
    else c3
  if c4.Limits.MaxPodsToEvictTotal = 0 then
    { c4 with Limits := { c4.Limits with MaxPodsToEvictTotal := 50 } }
  else c4

/-- validateResourceThresholds: each percentage must be in [0, 100]. -/
def validateResourceThresholds (thresholds : ResourceThresholds) : Option String :=
  if thresholds.CPU < 0 ∨ thresholds.CPU > 100 then
    some "CPU threshold must be between 0 and 100"
  else if thresholds.Memory < 0 ∨ thresholds.Memory > 100 then
    some "Memory threshold must be between 0 and 100"
  else if thresholds.Pods < 0 ∨ thresholds.Pods > 100 then
    some "Pods threshold must be between 0 and 100"
  else none

/-- validateConfig. -/
def validateConfig (c : Config) : Option String :=
  if c.Interval < minuteNs then some "interval must be at least 1 minute"
  else if c.Limits.MaxPodsToEvictPerNode < 0 then
    some "maxPodsToEvictPerNode must be >= 0"
  else if c.Limits.MaxPodsToEvictPerNamespace < 0 then
    some "maxPodsToEvictPerNamespace must be >= 0"
  else if c.Limits.MaxPodsToEvictTotal < 0 then
    some "maxPodsToEvictTotal must be >= 0"
  else
    match c.Strategies.LowNodeUtilization with
    | some lnu =>
      if lnu.Enabled then
        match validateResourceThresholds lnu.Thresholds with
        | some e => some ("invalid thresholds: " ++ e)
        | none =>
          match validateResourceThresholds lnu.TargetThresholds with
          | some e => some ("invalid targetThresholds: " ++ e)
          | none => none
      else none
    | none => none

/-- LoadConfig after YAML decoding: set defaults, then validate. -/
def LoadConfig (parsed : Config) : Option String × Option Config :=
  let c := setDefaults parsed
  match validateConfig c with
  | some e => (some ("invalid config: " ++ e), none)
  | none => (none, some c)

/-- The one-shot branch of Scheduler.Run: taken exactly when the configured
interval is zero. -/
def isOneShotRun (c : Config) : Bool :=
  c.Interval == 0

/-! ## Controller cycle (pkg/scheduler runOnce), at the event level -/

/-- A strategy as the controller sees it: its name, whether it is enabled,
and the effect of its Execute on the shared evictor stats. -/
structure StrategySpec where
  name : String
  enabled : Bool
  run : EvictionStats → EvictionStats

/-- nodeMatchesSelector: every selector pair must appear in the node's
labels. -/
def nodeMatchesSelector (selector : List (String × String)) (node : Node) : Bool :=
  selector.all (fun kv =>
    match node.Labels.find? (fun l => l.1 == kv.1) with
    | some l => l.2 == kv.2
    | none => false)

/-- filterNodesBySelector: an empty selector keeps every node. -/
def filterNodesBySelector (cfg : Config) (nodes : List Node) : List Node :=
  if cfg.NodeSelector.length = 0 then nodes
  else nodes.filter (nodeMatchesSelector cfg.NodeSelector)

/-- What one cycle did: whether stats were reset, which enabled strategies
ran, whether the cycle-statistics summary was printed, and the final
stats. -/
structure CycleResult where
  statsReset : Bool
  executedStrategies : List String
  summaryEmitted : Bool
  finalStats : EvictionStats

/-- runOnce: reset stats; keep ready and schedulable nodes; fewer than 2
retained nodes ends the cycle (no strategies, no summary); an empty
selector result also ends the cycle; otherwise run every enabled strategy
in order and print the cycle statistics. -/
def runOnce (cfg : Config) (strats : List StrategySpec) (nodes : List Node) :
    CycleResult :=
  let stats0 := initialStats
  let available := nodes.filter (fun n => IsReadyNode n && IsSchedulableNode n)
  if available.length < 2 then
    { statsReset := true, executedStrategies := [], summaryEmitted := false,
      finalStats := stats0 }
  else
    let filtered := filterNodesBySelector cfg available
    if filtered.length = 0 then
      { statsReset := true, executedStrategies := [], summaryEmitted := false,
        finalStats := stats0 }
    else
      let enabled := strats.filter (fun s => s.enabled)
      { statsReset := true
        executedStrategies := enabled.map (fun s => s.name)
        summaryEmitted := true
        finalStats := enabled.foldl (fun st s => s.run st) stats0 }

/-! ## Concrete inputs used by witnesses and counterexamples -/

/-- An ordinary evictable workload: owned by a ReplicaSet, running, no
local storage, in a non-system namespace. -/
def basePod : Pod :=
  { Namespace := "default"
    Name := "web-1"
    NodeName := "node-1"
    Phase := PodPhase.Running
    OwnerReferences := [{ Kind := "ReplicaSet", Name := "web" }]
    Annotations := []
    DeletionTimestamp := none
    PriorityClassName := ""
    Priority := none
    Volumes := []
    Containers := [{ Image := "img" }]
    CreationTimestamp := 100
    StatusReason := "" }

/-- Limits 10 per node, 5 per namespace, 50 total (the documented
defaults). -/
def defaultLimits : EvictionLimits :=
  { MaxPodsToEvictPerNode := 10
    MaxPodsToEvictPerNamespace := 5
    MaxPodsToEvictTotal := 50 }

/-- A configuration with the default limits and no strategy configs. -/
def baseConfig : Config :=
  { Interval := 5 * minuteNs
    DryRun := false
    NodeSelector := []
    Limits := defaultLimits
    Strategies := { RemoveFailedPods := none, LowNodeUtilization := none,
                    RemoveDuplicates := none }
    LogLevel := "info" }

/-- C3 witness input: a total budget of 1 that is already spent. -/
def cfgTotal1 : Config :=
  { baseConfig with
    Limits := { defaultLimits with MaxPodsToEvictTotal := 1 } }

/-- C3 witness input: stats after one earlier eviction. -/
def statsAfterOne : EvictionStats :=
  { TotalEvicted := 1
    EvictedByNode := [("node-1", 1)]
    EvictedByNamespace := [("default", 1)]
    EvictedByReason := [("earlier", 1)]
    FailedEvictions := 0 }

/-- C4 witness input: a dry-run configuration. -/
def cfgDry : Config :=
  { baseConfig with DryRun := true }

/-- C5 inputs: the LowNodeUtilization configuration with target thresholds
80/80/80. -/
def lnuC5 : LowNodeUtilizationConfig :=
  { Enabled := true
    Thresholds := { CPU := 20, Memory := 20, Pods := 20 }
    TargetThresholds := { CPU := 80, Memory := 80, Pods := 80 }
    NumberOfNodes := 1 }

/-- C5 inputs: an over-utilized node at CPU 90%, so maxExcess is 10 and
the cap is 1. -/
def utilC5 : NodeResourceUtilization :=
  { NodeName := "node-1"
    CPUUsage := 900
    MemoryUsage := 0
    PodsCount := 2
    CPUPercent := 90
    MemoryPercent := 50
    PodsPercent := 40 }

/-- C5 inputs: dry-run, per-namespace budget 1, per-node budget
disabled. -/
def cfgC5 : Config :=
  { baseConfig with
    DryRun := true
    Limits := { MaxPodsToEvictPerNode := 0, MaxPodsToEvictPerNamespace := 1,
                MaxPodsToEvictTotal := 50 } }

/-- C5 inputs: one eviction already charged against namespace ns-a by an
earlier strategy of the same cycle. -/
def statsC5 : EvictionStats :=
  { TotalEvicted := 1
    EvictedByNode := [("node-9", 1)]
    EvictedByNamespace := [("ns-a", 1)]
    EvictedByReason := [("earlier", 1)]
    FailedEvictions := 0 }

/-- C5 inputs: an evictable candidate in the saturated namespace ns-a. -/
def podC5a : Pod :=
  { basePod with Namespace := "ns-a", Name := "a-1" }

/-- C5 inputs: an evictable candidate in the fresh namespace ns-b. -/
def podC5b : Pod :=
  { basePod with Namespace := "ns-b", Name := "b-1" }

/-- An API oracle under which every real eviction call succeeds (unused
under dry-run). -/
def apiAllOk : Pod → Option String := fun _ => none

/-- C6 inputs: two duplicate pods on the same single node. -/
def podC6old : Pod :=
  { basePod with Name := "d-1", CreationTimestamp := 50 }

/-- C6 inputs: the younger duplicate. -/
def podC6new : Pod :=
  { basePod with Name := "d-2", CreationTimestamp := 60 }

/-- C6 inputs: a signature group M whose only node holds two workloads. -/
def groupC6 : List (String × List Pod) :=
  [("node-1", [podC6old, podC6new])]

/-- C7 input: a parsed configuration whose interval is exactly 0. -/
def cfgInterval0 : Config :=
  { Interval := 0
    DryRun := false
    NodeSelector := []
    Limits := { MaxPodsToEvictPerNode := 0, MaxPodsToEvictPerNamespace := 0,
                MaxPodsToEvictTotal := 0 }
    Strategies := { RemoveFailedPods := none, LowNodeUtilization := none,
                    RemoveDuplicates := none }
    LogLevel := "" }

/-- C7: what LoadConfig actually returns for cfgInterval0 — the interval
silently becomes 5 minutes. -/
def cfgInterval0Loaded : Config :=
  { Interval := 5 * minuteNs
    DryRun := false
    NodeSelector := []
    Limits := { MaxPodsToEvictPerNode := 10, MaxPodsToEvictPerNamespace := 5,
                MaxPodsToEvictTotal := 50 }
    Strategies := { RemoveFailedPods := none, LowNodeUtilization := none,
                    RemoveDuplicates := none }
    LogLevel := "info" }

/-- C8 witness input: images listed z-first, everything irrelevant set one
way. -/
def podC8p : Pod :=
  { basePod with
    Name := "p"
    NodeName := "node-a"
    Containers := [{ Image := "z-img" }, { Image := "a-img" }]
    Annotations := [("team", "x")]
    Priority := some 5
    CreationTimestamp := 10 }

/-- C8 witness input: same namespace, owners and image set, images listed
a-first, every other field different. -/
def podC8q : Pod :=
  { basePod with
    Name := "q"
    NodeName := "node-b"
    Phase := PodPhase.Failed
    Containers := [{ Image := "a-img" }, { Image := "z-img" }]
    DeletionTimestamp := some 7
    PriorityClassName := "high"
    Volumes := [{ HostPath := true, EmptyDir := false }]
    CreationTimestamp := 99
    StatusReason := "Evicted" }

/-- C9 inputs: a single ready, schedulable node. -/
def nodeReady1 : Node :=
  { Name := "node-1"
    Labels := []
    Unschedulable := false
    Conditions := [{ CondType := "Ready", Status := "True" }] }

/-- C9 inputs: one enabled strategy that would run if the cycle reached
the strategy step. -/
def stratsC9 : List StrategySpec :=
  [{ name := "RemoveFailedPods", enabled := true, run := fun s => s }]

/-! ## Map lemmas -/

theorem mapGet_mapInc (m : CountMap) (k j : String) :
    mapGet (mapInc m k) j = if j = k then mapGet m k + 1 else mapGet m j := by
  induction m with
  | nil =>
    rcases eq_or_ne j k with h | h
    · subst h; simp [mapInc, mapGet]
    · simp [mapInc, mapGet, h, Ne.symm h]
  | cons kv rest ih =>
    by_cases hk : kv.1 = k
    · rcases eq_or_ne j k with hj | hj
      · subst hj; simp [mapInc, mapGet, hk]
      · simp [mapInc, mapGet, hk, Ne.symm hj, hj]
    · by_cases hkvj : kv.1 = j
      · have hj : ¬ j = k := by rw [← hkvj]; exact hk
        simp [mapInc, mapGet, hk, hkvj, hj]
      · simp [mapInc, mapGet, hk, hkvj, ih]

theorem mem_mapKeys_mapInc (m : CountMap) (k j : String)
    (h : j ∈ mapKeys (mapInc m k)) : j ∈ mapKeys m ∨ j = k := by
  induction m with
  | nil =>
    simp [mapInc, mapKeys] at h
    exact Or.inr h
  | cons kv rest ih =>
    by_cases hk : kv.1 = k
    · rw [show mapInc (kv :: rest) k = (kv.1, kv.2 + 1) :: rest from by
        simp [mapInc, hk]] at h
      exact Or.inl (by simpa [mapKeys] using h)
    · rw [show mapInc (kv :: rest) k = kv :: mapInc rest k from by
        simp [mapInc, hk]] at h
      simp only [mapKeys, List.map_cons, List.mem_cons] at h ⊢
      rcases h with h | h
      · exact Or.inl (Or.inl h)
      · rcases ih h with h2 | h2
        · exact Or.inl (Or.inr h2)
        · exact Or.inr h2

/-! ## Gatekeeper lemmas -/

theorem checkEvictionLimits_none_total {L : EvictionLimits} {s : EvictionStats}
    {p : Pod} (h : checkEvictionLimits L s p = none)
    (hpos : L.MaxPodsToEvictTotal > 0) :
    s.TotalEvicted < L.MaxPodsToEvictTotal := by
  simp only [checkEvictionLimits] at h
  split_ifs at h with h1 h2 h3
  push_neg at h1
  exact h1 hpos

theorem checkEvictionLimits_none_node {L : EvictionLimits} {s : EvictionStats}
    {p : Pod} (h : checkEvictionLimits L s p = none)
    (hpos : L.MaxPodsToEvictPerNode > 0) (hnn : ¬ p.NodeName = "") :
    mapGet s.EvictedByNode p.NodeName < L.MaxPodsToEvictPerNode := by
  simp only [checkEvictionLimits] at h
  split_ifs at h with h1 h2 h3
  push_neg at h2
  exact h2 hpos hnn

theorem checkEvictionLimits_none_namespace {L : EvictionLimits}
    {s : EvictionStats} {p : Pod} (h : checkEvictionLimits L s p = none)
    (hpos : L.MaxPodsToEvictPerNamespace > 0) :
    mapGet s.EvictedByNamespace p.Namespace < L.MaxPodsToEvictPerNamespace := by
  simp only [checkEvictionLimits] at h
  split_ifs at h with h1 h2 h3
  push_neg at h3
  exact h3 hpos

theorem statsWithinLimits_initial (L : EvictionLimits) :
    statsWithinLimits L initialStats := by
  refine ⟨fun h => ?_, fun h k => ?_, fun h k => ?_⟩ <;>
    simp [initialStats, mapGet] <;> omega

theorem statsWithinLimits_updateStats {L : EvictionLimits} {s : EvictionStats}
    {p : Pod} (r : String) (h : statsWithinLimits L s)
    (hchk : checkEvictionLimits L s p = none) :
    statsWithinLimits L (updateStats s p r true) := by
  obtain ⟨h1, h2, h3⟩ := h
  refine ⟨fun hpos => ?_, fun hpos k => ?_, fun hpos k => ?_⟩
  · have := checkEvictionLimits_none_total hchk hpos
    simp only [updateStats, if_pos trivial]
    omega
  · by_cases hnn : p.NodeName = ""
    · simpa [updateStats, hnn] using h2 hpos k
    · have hlt := checkEvictionLimits_none_node hchk hpos hnn
      simp only [updateStats, if_pos trivial, if_pos hnn, mapGet_mapInc]
      split_ifs with hk
      · subst hk; omega
      · exact h2 hpos k
  · have hlt := checkEvictionLimits_none_namespace hchk hpos
    simp only [updateStats, if_pos trivial, mapGet_mapInc]
    split_ifs with hk
    · subst hk; omega
    · exact h3 hpos k

theorem statsWithinLimits_applyOp (cfg : Config) (s : EvictionStats)
    (op : EvictorOp) (h : statsWithinLimits cfg.Limits s) :
    statsWithinLimits cfg.Limits (applyOp cfg s op) := by
  cases op with
  | reset => exact statsWithinLimits_initial _
  | evict p r api =>
    show statsWithinLimits cfg.Limits (EvictPod cfg s p r api).stats
    cases hc : checkEvictionLimits cfg.Limits s p with
    | some e => simpa only [EvictPod, hc] using h
    | none =>
      by_cases hd : cfg.DryRun
      · simpa only [EvictPod, hc, if_pos hd] using
          statsWithinLimits_updateStats r h hc
      · cases api with
        | some apiErr =>
          simp only [EvictPod, hc, if_neg hd]
          exact h
        | none =>
          simpa only [EvictPod, hc, if_neg hd] using
            statsWithinLimits_updateStats r h hc

theorem statsWithinLimits_foldl (cfg : Config) (ops : List EvictorOp)
    (s : EvictionStats) (h : statsWithinLimits cfg.Limits s) :
    statsWithinLimits cfg.Limits (ops.foldl (applyOp cfg) s) := by
  induction ops generalizing s with
  | nil => simpa using h
  | cons op rest ih =>
    simpa using ih _ (statsWithinLimits_applyOp cfg s op h)

/-! ## Claim theorems -/

/-- Claim C1: across every sequence of gatekeeper Evict and Reset
operations of a cycle, totalEvicted stays at most maxTotal, every per-node
count stays at most maxPerNode, and every per-namespace count stays at most
maxPerNamespace, each bound applying when its configured limit is
positive. -/
theorem C1_eviction_quota_invariant (cfg : Config) (ops : List EvictorOp) :
    statsWithinLimits cfg.Limits (runOps cfg ops) :=
  statsWithinLimits_foldl cfg ops initialStats
    (statsWithinLimits_initial cfg.Limits)

/-- Claim C3: an EvictPod call rejected by the quota check returns the
check's explanatory error, makes no API call, logs nothing at info level,
and leaves the statistics state exactly as it was. -/
theorem C3_quota_rejection_error_and_frame (cfg : Config) (s : EvictionStats)
    (p : Pod) (r : String) (api : Option String) (msg : String)
    (h : checkEvictionLimits cfg.Limits s p = some msg) :
    EvictPod cfg s p r api =
      { result := some msg, stats := s, apiCalled := false, infoLog := none } := by
  simp only [EvictPod, h]

/-- Witness for C3 at a concrete input: the total budget of 1 is already
spent, so the next call is rejected and the stats are unchanged. -/
theorem C3_quota_rejection_witness :
    checkEvictionLimits cfgTotal1.Limits statsAfterOne basePod =
      some "reached total eviction limit: 1" ∧
    EvictPod cfgTotal1 statsAfterOne basePod "cleanup" none =
      { result := some "reached total eviction limit: 1", stats := statsAfterOne,
        apiCalled := false, infoLog := none } :=
  ⟨by decide,
   C3_quota_rejection_error_and_frame cfgTotal1 statsAfterOne basePod "cleanup"
     none "reached total eviction limit: 1" (by decide)⟩

/-- Claim C4: a workload accepted by the quota check under dryRun makes no
platform API call, logs the exact DryRun line at info level, returns the
nil error, and changes the statistics exactly as a successful real eviction
would. -/
theorem C4_dryrun_no_api_exact_log_stats (cfg : Config) (s : EvictionStats)
    (p : Pod) (r : String) (api : Option String) (hdry : cfg.DryRun = true)
    (hq : checkEvictionLimits cfg.Limits s p = none) :
    EvictPod cfg s p r api =
      { result := none
        stats := updateStats s p r true
        apiCalled := false
        infoLog := some ("[DryRun] Would evict pod " ++ p.Namespace ++ "/" ++
          p.Name ++ " on node " ++ p.NodeName ++ ", reason: " ++ r) } ∧
    (EvictPod cfg s p r api).stats =
      (EvictPod { cfg with DryRun := false } s p r none).stats := by
  constructor
  · simp only [EvictPod, hq, hdry, if_pos]
  · have hq2 : checkEvictionLimits ({ cfg with DryRun := false } : Config).Limits s p = none := hq
    simp only [EvictPod, hq, hq2, hdry, if_pos]
    simp

/-- Witness for C4 at a concrete input: a dry-run eviction of basePod from
fresh stats. -/
theorem C4_dryrun_witness :
    cfgDry.DryRun = true ∧
    checkEvictionLimits cfgDry.Limits initialStats basePod = none ∧
    (EvictPod cfgDry initialStats basePod "r4" none =
      { result := none
        stats := updateStats initialStats basePod "r4" true
        apiCalled := false
        infoLog := some ("[DryRun] Would evict pod " ++ basePod.Namespace ++ "/" ++
          basePod.Name ++ " on node " ++ basePod.NodeName ++ ", reason: " ++ "r4") } ∧
    (EvictPod cfgDry initialStats basePod "r4" none).stats =
      (EvictPod { cfgDry with DryRun := false } initialStats basePod "r4" none).stats) :=
  ⟨rfl, by decide,
   C4_dryrun_no_api_exact_log_stats cfgDry initialStats basePod "r4" none rfl
     (by decide)⟩

/-- Claim C10: when a workload's bound node name is the empty string, the
per-node quota check is skipped (the check's result does not depend on the
byNode map), the byNode map is not updated, and hence across every sequence
of gatekeeper operations the byNode map never holds the empty string as a
key. -/
theorem C10_empty_node_name_invariant :
    (∀ (L : EvictionLimits) (s sB : EvictionStats) (p : Pod),
      p.NodeName = "" → s.TotalEvicted = sB.TotalEvicted →
      s.EvictedByNamespace = sB.EvictedByNamespace →
      checkEvictionLimits L s p = checkEvictionLimits L sB p) ∧
    (∀ (s : EvictionStats) (p : Pod) (r : String), p.NodeName = "" →
      (updateStats s p r true).EvictedByNode = s.EvictedByNode) ∧
    (∀ (cfg : Config) (ops : List EvictorOp),
      ¬ "" ∈ mapKeys (runOps cfg ops).EvictedByNode) := by
  refine ⟨?_, ?_, ?_⟩
  · intro L s sB p h ht hn
    simp [checkEvictionLimits, h, ht, hn]
  · intro s p r h
    simp [updateStats, h]
  · have hstep : ∀ (cfg : Config) (s : EvictionStats) (op : EvictorOp),
        ¬ "" ∈ mapKeys s.EvictedByNode →
        ¬ "" ∈ mapKeys (applyOp cfg s op).EvictedByNode := by
      intro cfg s op h
      cases op with
      | reset => simp [applyOp, initialStats, mapKeys]
      | evict p r api =>
        show ¬ "" ∈ mapKeys (EvictPod cfg s p r api).stats.EvictedByNode
        cases hc : checkEvictionLimits cfg.Limits s p with
        | some e => simpa only [EvictPod, hc] using h
        | none =>
          have hupd : ¬ "" ∈ mapKeys (updateStats s p r true).EvictedByNode := by
            by_cases hnn : p.NodeName = ""
            · simpa [updateStats, hnn] using h
            · simp only [updateStats, if_pos, if_pos hnn]
              intro hmem
              rcases mem_mapKeys_mapInc _ _ _ hmem with h2 | h2
              · exact h h2
              · exact hnn h2.symm
          by_cases hd : cfg.DryRun
          · simpa only [EvictPod, hc, if_pos hd] using hupd
          · cases api with
            | some apiErr => simpa only [EvictPod, hc, if_neg hd] using h
            | none => simpa only [EvictPod, hc, if_neg hd] using hupd
    intro cfg ops
    have hfold : ∀ (s : EvictionStats), ¬ "" ∈ mapKeys s.EvictedByNode →
        ¬ "" ∈ mapKeys (ops.foldl (applyOp cfg) s).EvictedByNode := by
      induction ops with
      | nil => intro s h; simpa using h
      | cons op rest ih =>
        intro s h
        simpa using ih _ (hstep cfg s op h)
    exact hfold initialStats (by simp [initialStats, mapKeys])

/-! ## CanEvictPod condition lemmas -/

theorem isSystemCriticalPod_iff (p : Pod) :
    isSystemCriticalPod p = true ↔
      (p.PriorityClassName = "system-cluster-critical" ∨
       p.PriorityClassName = "system-node-critical" ∨
       p.Namespace = "kube-system" ∨ p.Namespace = "kube-public" ∨
       p.Namespace = "kube-node-lease") := by
  by_cases h : p.PriorityClassName = "system-cluster-critical" ∨
      p.PriorityClassName = "system-node-critical"
  · simp only [isSystemCriticalPod, if_pos h]
    tauto
  · simp only [isSystemCriticalPod, if_neg h, List.any_cons, List.any_nil,
      Bool.or_eq_true, beq_iff_eq, Bool.false_eq_true, or_false]
    tauto

theorem isStaticPod_iff (p : Pod) :
    isStaticPod p = true ↔
      (p.Annotations.find? (fun kv => kv.1 == "kubernetes.io/config.source")).map
        (fun kv => kv.2) = some "file" := by
  cases h : p.Annotations.find? (fun kv => kv.1 == "kubernetes.io/config.source") with
  | none => simp [isStaticPod, h]
  | some kv => simp [isStaticPod, h, beq_iff_eq]

theorem isStandalonePod_iff (p : Pod) :
    isStandalonePod p = true ↔ p.OwnerReferences = [] := by
  simp [isStandalonePod]

/-- Claim C2: CanEvictPod is exactly the specification's six-condition
cascade (system-critical, DaemonSet-like, static, standalone non-failed,
terminating, local storage, first matching reason wins), and a workload
with no owner references in phase Failed is never rejected by the
standalone rule. -/
theorem C2_canEvictPod_is_spec_cascade :
    (∀ p : Pod, CanEvictPod p = canEvictSpec p) ∧
    (∀ p : Pod, p.OwnerReferences = [] → p.Phase = PodPhase.Failed →
      CanEvictPod p ≠ (false, "standalone pod (not failed)")) := by
  constructor
  · intro p
    simp only [CanEvictPod, canEvictSpec, isSystemCriticalPod_iff, isStaticPod_iff,
      isStandalonePod_iff, isDaemonSetPod, hasLocalStorage,
      Option.isSome_iff_ne_none, ne_eq]
  · intro p h1 h2
    simp only [CanEvictPod, isStandalonePod, h1, h2]
    split_ifs <;> simp_all

/-- Claim C7: configuration loading does not accept interval 0 as one-shot
mode — setDefaults rewrites a zero interval to 5 minutes before validation,
so the loaded configuration takes the periodic branch of Run, although
Run's own one-shot branch fires exactly on interval 0. -/
theorem C7_interval_zero_defaulted_to_periodic :
    LoadConfig cfgInterval0 = (none, some cfgInterval0Loaded) ∧
    cfgInterval0Loaded.Interval = 5 * minuteNs ∧
    isOneShotRun cfgInterval0Loaded = false ∧
    isOneShotRun cfgInterval0 = true := by
  refine ⟨by decide, by decide, by decide, by decide⟩

/-- Claim C8: the signature is a function of namespace, the ordered
owner-reference list, and the sorted image list alone — two workloads that
agree on these three components have equal signatures. -/
theorem C8_signature_depends_only_on_components (p q : Pod)
    (hns : p.Namespace = q.Namespace)
    (hown : p.OwnerReferences = q.OwnerReferences)
    (himg : GetPodImages p = GetPodImages q) :
    GeneratePodSignature p = GeneratePodSignature q := by
  simp only [GeneratePodSignature, hns, hown, himg]

/-- Witness for C8 at concrete inputs: podC8p and podC8q share namespace,
owners and image set (their container lists are in different orders) but
differ in node, phase, deletion marker, priority class, volumes, timestamps
and status reason; their signatures agree. -/
theorem C8_signature_witness :
    podC8p.Namespace = podC8q.Namespace ∧
    podC8p.OwnerReferences = podC8q.OwnerReferences ∧
    GetPodImages podC8p = GetPodImages podC8q ∧
    GeneratePodSignature podC8p = GeneratePodSignature podC8q :=
  ⟨rfl, rfl, by decide,
   C8_signature_depends_only_on_components podC8p podC8q rfl rfl (by decide)⟩

/-- Counterexample to claim C9: with a single ready schedulable node and an
enabled strategy, runOnce runs no strategy and also emits no cycle summary,
while the claim says the summary step is still performed. -/
theorem C9_single_node_counterexample :
    (([nodeReady1].filter (fun n => IsReadyNode n && IsSchedulableNode n)).length < 2) ∧
    stratsC9.any (fun s => s.enabled) = true ∧
    (runOnce baseConfig stratsC9 [nodeReady1]).executedStrategies = [] ∧
    (runOnce baseConfig stratsC9 [nodeReady1]).summaryEmitted = false ∧
    ¬ (runOnce baseConfig stratsC9 [nodeReady1]).summaryEmitted = true := by
  refine ⟨by decide, by decide, ?_, ?_, ?_⟩ <;> simp [runOnce, IsReadyNode,
    IsSchedulableNode, nodeReady1]

/-- Claim C9 as amended: a cycle whose retained ready-and-schedulable node
set has fewer than 2 elements resets the statistics but ends early — it
runs no strategy and does not perform the summary step. -/
theorem C9_single_node_skips_cycle (cfg : Config) (strats : List StrategySpec)
    (nodes : List Node)
    (h : (nodes.filter (fun n => IsReadyNode n && IsSchedulableNode n)).length < 2) :
    (runOnce cfg strats nodes).statsReset = true ∧
    (runOnce cfg strats nodes).executedStrategies = [] ∧
    (runOnce cfg strats nodes).summaryEmitted = false ∧
    (runOnce cfg strats nodes).finalStats = initialStats := by
  simp [runOnce, h]

/-- Witness for the amended C9 at a concrete input: one ready node. -/
theorem C9_single_node_skips_cycle_witness :
    (([nodeReady1].filter (fun n => IsReadyNode n && IsSchedulableNode n)).length < 2) ∧
    ((runOnce cfgDry stratsC9 [nodeReady1]).statsReset = true ∧
     (runOnce cfgDry stratsC9 [nodeReady1]).executedStrategies = [] ∧
     (runOnce cfgDry stratsC9 [nodeReady1]).summaryEmitted = false ∧
     (runOnce cfgDry stratsC9 [nodeReady1]).finalStats = initialStats) :=
  ⟨by decide, C9_single_node_skips_cycle cfgDry stratsC9 [nodeReady1] (by decide)⟩

/-! ## LowNodeUtilization loop lemmas -/

theorem evictLoop_evicted_le (cfg : Config) (api : Pod → Option String)
    (maxE : Int) (r : String) (pods : List Pod) (st : LoopState)
    (h : st.evicted ≤ maxE) :
    (evictLoop cfg api maxE r pods st).evicted ≤ maxE := by
  induction pods generalizing st with
  | nil => simpa [evictLoop] using h
  | cons pod rest ih =>
    simp only [evictLoop]
    split_ifs with h1 h2
    · exact h
    · split
      · exact ih _ h
      · exact ih _ (by simp; omega)
    · exact ih _ h

/-- Claim C5 as amended: the per-node cap equals
clamp(⌊maxExcess / 10⌋, 1, 5); the cap bounds the number of successful
evictions of the loop; and a candidate rejected by the gatekeeper —
whether by CanEvictPod for safety or by the quota check — does not consume
a cap slot (a quota rejection leaves the whole loop state unchanged). -/
theorem C5_cap_formula_and_slot_accounting :
    (∀ (lnu : LowNodeUtilizationConfig) (u : NodeResourceUtilization),
      calculateMaxEvictions lnu u =
        min (max ((max (max 0 (u.CPUPercent - lnu.TargetThresholds.CPU))
          (max (max 0 (u.MemoryPercent - lnu.TargetThresholds.Memory))
            (max 0 (u.PodsPercent - lnu.TargetThresholds.Pods)))) / 10) 1) 5) ∧
    (∀ (cfg : Config) (lnu : LowNodeUtilizationConfig) (api : Pod → Option String)
      (u : NodeResourceUtilization) (pods : List Pod) (stats : EvictionStats),
      (processOverUtilizedNode cfg lnu api u pods stats).evicted ≤
        calculateMaxEvictions lnu u) ∧
    (∀ (cfg : Config) (api : Pod → Option String) (maxE : Int) (r : String)
      (pod : Pod) (rest : List Pod) (st : LoopState),
      ¬ (CanEvictPod pod).1 = true → ¬ st.evicted ≥ maxE →
      evictLoop cfg api maxE r (pod :: rest) st =
        evictLoop cfg api maxE r rest { st with skipped := st.skipped + 1 }) ∧
    (∀ (cfg : Config) (api : Pod → Option String) (maxE : Int) (r : String)
      (pod : Pod) (rest : List Pod) (st : LoopState) (msg : String),
      ¬ st.evicted ≥ maxE → (CanEvictPod pod).1 = true →
      checkEvictionLimits cfg.Limits st.stats pod = some msg →
      evictLoop cfg api maxE r (pod :: rest) st = evictLoop cfg api maxE r rest st) := by
  refine ⟨?_, ?_, ?_, ?_⟩
  · intro lnu u
    simp only [calculateMaxEvictions]
    generalize (max (max 0 (u.CPUPercent - lnu.TargetThresholds.CPU))
      (max (max 0 (u.MemoryPercent - lnu.TargetThresholds.Memory))
        (max 0 (u.PodsPercent - lnu.TargetThresholds.Pods)))) / 10 = x
    rcases le_total x 1 with h1 | h1 <;> rcases le_total x 5 with h5 | h5 <;>
      simp [max_def, min_def] <;> split_ifs <;> omega
  · intro cfg lnu api u pods stats
    refine evictLoop_evicted_le cfg api _ _ pods _ ?_
    show (0 : Int) ≤ calculateMaxEvictions lnu u
    simp only [calculateMaxEvictions]
    have : (1 : Int) ≤ max 1 (min 5 ((max (max 0 (u.CPUPercent - lnu.TargetThresholds.CPU))
      (max (max 0 (u.MemoryPercent - lnu.TargetThresholds.Memory))
        (max 0 (u.PodsPercent - lnu.TargetThresholds.Pods)))) / 10)) := le_max_left _ _
    omega
  · intro cfg api maxE r pod rest st h1 h2
    simp only [evictLoop, if_neg h2, if_pos h1]
  · intro cfg api maxE r pod rest st msg h1 h2 h3
    have h4 : ¬ ¬ (CanEvictPod pod).1 = true := by simp [h2]
    simp only [evictLoop, if_neg h1, if_neg h4, EvictPod, h3]

/-- Counterexample to claim C5: the cap for utilC5 is 1; the first
candidate passes CanEvictPod but its EvictPod call is rejected on the
per-namespace quota; the code nonetheless still evicts the second
candidate (evicted reaches the full cap 1 and the total rises from 1 to
2), so a quota-rejected candidate does not consume a cap slot. -/
theorem C5_quota_rejection_counterexample :
    calculateMaxEvictions lnuC5 utilC5 = 1 ∧
    (CanEvictPod podC5a).1 = true ∧
    checkEvictionLimits cfgC5.Limits statsC5 podC5a =
      some "reached namespace ns-a eviction limit: 1" ∧
    (processOverUtilizedNode cfgC5 lnuC5 apiAllOk utilC5 [podC5a, podC5b] statsC5).evicted = 1 ∧
    (processOverUtilizedNode cfgC5 lnuC5 apiAllOk utilC5 [podC5a, podC5b] statsC5).stats.TotalEvicted = 2 ∧
    ¬ (processOverUtilizedNode cfgC5 lnuC5 apiAllOk utilC5 [podC5a, podC5b] statsC5).stats.TotalEvicted = 1 := by
  refine ⟨by decide, by decide, by decide, by decide, by decide, by decide⟩

/-! ## Bubble sort lemmas (sortPodsByAge) -/

theorem bubbleCarry_perm (a : Pod) (l : List Pod) :
    List.Perm (bubbleCarry a l) (a :: l) := by
  induction l generalizing a with
  | nil => simp [bubbleCarry]
  | cons b t ih =>
    simp only [bubbleCarry]
    split_ifs with h
    · exact ((ih a).cons b).trans (List.Perm.swap a b t)
    · exact (ih b).cons a

theorem bubblePass_perm (l : List Pod) : List.Perm (bubblePass l) l := by
  cases l with
  | nil => simp [bubblePass]
  | cons a t => simpa [bubblePass] using bubbleCarry_perm a t

theorem bubbleCarry_max (a : Pod) (l : List Pod) :
    ∃ t2 m, bubbleCarry a l = t2 ++ [m] ∧
      ∀ x ∈ bubbleCarry a l, x.CreationTimestamp ≤ m.CreationTimestamp := by
  induction l generalizing a with
  | nil => exact ⟨[], a, rfl, by simp [bubbleCarry]⟩
  | cons b t ih =>
    simp only [bubbleCarry]
    split_ifs with h
    · obtain ⟨t2, m, heq, hle⟩ := ih a
      refine ⟨b :: t2, m, by rw [heq]; rfl, ?_⟩
      intro x hx
      rcases List.mem_cons.mp hx with rfl | hx2
      · have ha : a ∈ bubbleCarry a t :=
          (bubbleCarry_perm a t).mem_iff.mpr (List.mem_cons_self a t)
        exact le_of_lt (lt_of_lt_of_le h (hle a ha))
      · exact hle x hx2
    · obtain ⟨t2, m, heq, hle⟩ := ih b
      refine ⟨a :: t2, m, by rw [heq]; rfl, ?_⟩
      intro x hx
      rcases List.mem_cons.mp hx with rfl | hx2
      · have hb : b ∈ bubbleCarry b t :=
          (bubbleCarry_perm b t).mem_iff.mpr (List.mem_cons_self b t)
        exact le_trans (le_of_not_lt h) (hle b hb)
      · exact hle x hx2

theorem bubblePass_max (l : List Pod) (hne : l ≠ []) :
    ∃ t2 m, bubblePass l = t2 ++ [m] ∧
      ∀ x ∈ bubblePass l, x.CreationTimestamp ≤ m.CreationTimestamp := by
  cases l with
  | nil => exact absurd rfl hne
  | cons a t => simpa [bubblePass] using bubbleCarry_max a t

theorem sortPasses_correct (k : Nat) : ∀ (l : List Pod),
    List.Sorted podTsLe (l.drop k) →
    (∀ x ∈ l.take k, ∀ y ∈ l.drop k, podTsLe x y) →
    List.Perm (sortPasses k l) l ∧ List.Sorted podTsLe (sortPasses k l) := by
  induction k using Nat.strong_induction_on with
  | _ k ih =>
    rcases k with _ | k1
    · intro l h1 h2
      exact ⟨List.Perm.refl l, by simpa using h1⟩
    · rcases k1 with _ | k2
      · intro l h1 h2
        refine ⟨List.Perm.refl l, ?_⟩
        cases l with
        | nil => simp [sortPasses]
        | cons a t =>
          show List.Sorted podTsLe (a :: t)
          rw [List.sorted_cons]
          exact ⟨fun b hb => h2 a (by simp) b (by simpa using hb), by simpa using h1⟩
      · intro l h1 h2
        show List.Perm (sortPasses (k2 + 1) (passUpTo (k2 + 2) l)) l ∧
          List.Sorted podTsLe (sortPasses (k2 + 1) (passUpTo (k2 + 2) l))
        by_cases hl : l = []
        · subst hl
          have := ih (k2 + 1) (by omega) [] (by simp) (by intro x hx; simp at hx)
          simpa [passUpTo, bubblePass] using this
        · have hLne : l.take (k2 + 2) ≠ [] := by
            simp [List.take_eq_nil_iff, hl]
          obtain ⟨t2, m, heq, hmax⟩ := bubblePass_max (l.take (k2 + 2)) hLne
          have hperm : List.Perm (bubblePass (l.take (k2 + 2))) (l.take (k2 + 2)) :=
            bubblePass_perm _
          have hl2 : passUpTo (k2 + 2) l = t2 ++ (m :: l.drop (k2 + 2)) := by
            simp [passUpTo, heq]
          have hpl : List.Perm (passUpTo (k2 + 2) l) l := by
            have h0 : passUpTo (k2 + 2) l =
                bubblePass (l.take (k2 + 2)) ++ l.drop (k2 + 2) := rfl
            rw [h0]
            have h3 : List.Perm (bubblePass (l.take (k2 + 2)) ++ l.drop (k2 + 2))
                (l.take (k2 + 2) ++ l.drop (k2 + 2)) := hperm.append_right _
            rw [List.take_append_drop] at h3
            exact h3
          have hmemL : ∀ x ∈ bubblePass (l.take (k2 + 2)), x ∈ l.take (k2 + 2) :=
            fun x hx => hperm.mem_iff.mp hx
          have hmP : m ∈ bubblePass (l.take (k2 + 2)) := by rw [heq]; simp
          by_cases hfull : (l.take (k2 + 2)).length = k2 + 2
          · have hplen : (bubblePass (l.take (k2 + 2))).length = k2 + 2 := by
              rw [hperm.length_eq, hfull]
            have ht2len : t2.length = k2 + 1 := by
              rw [heq] at hplen
              simp at hplen
              omega
            have hdrop : (passUpTo (k2 + 2) l).drop (k2 + 1) = m :: l.drop (k2 + 2) := by
              rw [hl2, ← ht2len, List.drop_left]
            have htake : (passUpTo (k2 + 2) l).take (k2 + 1) = t2 := by
              rw [hl2, ← ht2len, List.take_left]
            have hsort2 : List.Sorted podTsLe ((passUpTo (k2 + 2) l).drop (k2 + 1)) := by
              rw [hdrop, List.sorted_cons]
              exact ⟨fun y hy => h2 m (hmemL m hmP) y hy, h1⟩
            have hcond2 : ∀ x ∈ (passUpTo (k2 + 2) l).take (k2 + 1),
                ∀ y ∈ (passUpTo (k2 + 2) l).drop (k2 + 1), podTsLe x y := by
              rw [htake, hdrop]
              intro x hx y hy
              have hxP : x ∈ bubblePass (l.take (k2 + 2)) := by
                rw [heq]; exact List.mem_append_left _ hx
              rcases List.mem_cons.mp hy with rfl | hy2
              · exact hmax x hxP
              · exact h2 x (hmemL x hxP) y hy2
            obtain ⟨hp, hs⟩ := ih (k2 + 1) (by omega) (passUpTo (k2 + 2) l) hsort2 hcond2
            exact ⟨hp.trans hpl, hs⟩
          · have hLlen : (l.take (k2 + 2)).length = min (k2 + 2) l.length := by simp
            have hshort : l.length < k2 + 2 := by
              rcases Nat.lt_or_ge l.length (k2 + 2) with hc | hc
              · exact hc
              · exact absurd (by rw [hLlen, Nat.min_eq_left hc]) hfull
            have hRnil : l.drop (k2 + 2) = [] := List.drop_eq_nil_of_le (by omega)
            have hplen2 : (bubblePass (l.take (k2 + 2))).length ≤ k2 + 1 := by
              rw [hperm.length_eq, hLlen]
              have := Nat.min_le_right (k2 + 2) l.length
              omega
            have hlen2 : (passUpTo (k2 + 2) l).length ≤ k2 + 1 := by
              have hrepr : passUpTo (k2 + 2) l =
                  bubblePass (l.take (k2 + 2)) ++ l.drop (k2 + 2) := rfl
              rw [hrepr, hRnil]
              simpa using hplen2
            have hdropnil : (passUpTo (k2 + 2) l).drop (k2 + 1) = [] :=
              List.drop_eq_nil_of_le hlen2
            obtain ⟨hp, hs⟩ := ih (k2 + 1) (by omega) (passUpTo (k2 + 2) l)
              (by rw [hdropnil]; simp)
              (by intro x hx y hy; rw [hdropnil] at hy; simp at hy)
            exact ⟨hp.trans hpl, hs⟩

theorem sortPodsByAge_perm (pods : List Pod) :
    List.Perm (sortPodsByAge pods) pods :=
  (sortPasses_correct pods.length pods (by simp)
    (by intro x hx y hy; simp at hy)).1

theorem sortPodsByAge_sorted (pods : List Pod) :
    List.Sorted podTsLe (sortPodsByAge pods) :=
  (sortPasses_correct pods.length pods (by simp)
    (by intro x hx y hy; simp at hy)).2

/-- Counterexample to claim C6: a signature group whose single node holds
two duplicate workloads is skipped by findDuplicateNodes (it returns the
empty selection), while the claim says that node must be selected. -/
theorem C6_single_node_group_counterexample :
    (groupC6.any (fun kv => kv.2.length > 1)) = true ∧
    findDuplicateNodes groupC6 = [] ∧
    ¬ "node-1" ∈ findDuplicateNodes groupC6 := by
  refine ⟨by decide, by decide, by decide⟩

/-- Claim C6 as amended: a signature group spread over fewer than 2 nodes
is always skipped, whatever its per-node counts; in a group with at least
2 nodes every node with more than one workload is selected; on each
selected node the workloads are sorted ascending by creation timestamp (a
permutation of the input), the head of the sorted list is an oldest
workload and is preserved, and exactly the remaining sorted workloads are
passed to the gatekeeper loop. -/
theorem C6_duplicate_selection_amended :
    (∀ m : List (String × List Pod), m.length < 2 → findDuplicateNodes m = []) ∧
    (∀ (m : List (String × List Pod)) (k : String) (pods : List Pod),
      2 ≤ m.length → (k, pods) ∈ m → 1 < pods.length →
      k ∈ findDuplicateNodes m) ∧
    (∀ pods : List Pod, List.Perm (sortPodsByAge pods) pods) ∧
    (∀ pods : List Pod, List.Sorted podTsLe (sortPodsByAge pods)) ∧
    (∀ pods : List Pod, pods ≠ [] → ∃ oldest rest,
      sortPodsByAge pods = oldest :: rest ∧
      ∀ x ∈ pods, oldest.CreationTimestamp ≤ x.CreationTimestamp) ∧
    (∀ (cfg : Config) (api : Pod → Option String) (nodeName : String)
      (pods : List Pod) (stats : EvictionStats),
      processDuplicateNode cfg api nodeName pods stats =
        dupLoop cfg api nodeName ((sortPodsByAge pods).drop 1)
          { evicted := 0, skipped := 0, stats := stats }) := by
  refine ⟨?_, ?_, sortPodsByAge_perm, sortPodsByAge_sorted, ?_, ?_⟩
  · intro m h
    simp [findDuplicateNodes, h]
  · intro m k pods hlen hmem hgt
    have hne : ¬ m.length < 2 := by omega
    have hk : k ∈ (m.filter (fun kv => kv.2.length > 1)).map (fun kv => kv.1) :=
      List.mem_map.mpr ⟨(k, pods), List.mem_filter.mpr ⟨hmem, by simpa using hgt⟩, rfl⟩
    have hd0 : ¬ ((m.filter (fun kv => kv.2.length > 1)).map
        (fun kv => kv.1)).length = 0 := by
      intro h0
      rw [List.length_eq_zero] at h0
      rw [h0] at hk
      simp at hk
    simp only [findDuplicateNodes, if_neg hne]
    rw [if_neg (fun hc => hd0 hc.1)]
    exact hk
  · intro pods hne
    have hperm := sortPodsByAge_perm pods
    have hsort := sortPodsByAge_sorted pods
    cases hsp : sortPodsByAge pods with
    | nil =>
      rw [hsp] at hperm
      exact absurd hperm.symm.eq_nil hne
    | cons o r =>
      refine ⟨o, r, rfl, ?_⟩
      intro x hx
      have hx2 : x ∈ o :: r := by
        rw [← hsp]
        exact hperm.mem_iff.mpr hx
      rcases List.mem_cons.mp hx2 with rfl | hx3
      · exact le_refl _
      · rw [hsp] at hsort
        exact (List.sorted_cons.mp hsort).1 x hx3
  · intro cfg api nodeName pods stats
    rfl

end Descheduler
